import Mathlib

/-!
# UberEats-Mock front end: `RestaurantPage.jsx` and `PaymentPage.jsx`

A shallow embedding of the two React components of the repository.

* React state is an explicit record; every handler is a function on that record.
* An `await` splits a handler into the part that runs before the promise
  settles and one continuation per outcome of the promise.
* Calls to the outside world (`fetch`, `console`, `payhere.startPayment`) are
  recorded as a list of effects, in program order.
* The values `parseInt` can return are the integer-valued JavaScript Numbers,
  `NaN` and the two infinities; they are modelled exactly by `JSNum`.
* The Numbers of the order summary are arbitrary doubles; they are modelled by
  `Double`, with the rounding of IEEE 754 for `+` and `*`.
* A property read on the `quantities` object follows the prototype chain.
-/

namespace UberEats

/-! ## JavaScript numbers reachable from `parseInt` -/

/-- The Number values that `parseInt`, `||` and `Math.max` can produce here:
`NaN`, an integer-valued double (`fin z`), `+Infinity` and `-Infinity`.
`-0` and `+0` are both `fin 0`: they are equally falsy and compare equal. -/
inductive JSNum where
  | nan : JSNum
  | fin (z : Int) : JSNum
  | posInf : JSNum
  | negInf : JSNum
  deriving DecidableEq, Repr

/-- Truthiness of a Number: `NaN` and `0` are falsy, everything else is truthy. -/
def JSNum.truthy : JSNum → Bool
  | .nan => false
  | .fin z => z != 0
  | .posInf => true
  | .negInf => true

/-- The expression `a || b` on Numbers. -/
def JSNum.or (a b : JSNum) : JSNum :=
  if a.truthy then a else b

/-- The call `Math.max(a, b)`: `NaN` if either argument is `NaN`, else the larger. -/
def Math.max : JSNum → JSNum → JSNum
  | .nan, _ => .nan
  | _, .nan => .nan
  | .posInf, _ => .posInf
  | _, .posInf => .posInf
  | .negInf, b => b
  | a, .negInf => a
  | .fin a, .fin b => .fin (if a < b then b else a)

/-- How many low bits a natural number has beyond 53 significant ones; the
first argument bounds the number of halvings and is passed as the number itself. -/
def excessBits : Nat → Nat → Nat
  | 0, _ => 0
  | fuel + 1, n => if n < 2 ^ 53 then 0 else 1 + excessBits fuel (n / 2)

/-- The Number value of a natural number: exact below `2^53`, otherwise rounded
to 53 significant bits, ties to even; `none` stands for an overflow to
`Infinity` (a rounded value of `2^1024` or more). -/
def roundToDouble (n : Nat) : Option Nat :=
  let e := excessBits n n
  if e = 0 then some n
  else
    let q := n / 2 ^ e
    let r := n % 2 ^ e
    let half := 2 ^ (e - 1)
    let q1 := if half < r ∨ (r = half ∧ q % 2 = 1) then q + 1 else q
    let m := q1 * 2 ^ e
    if 2 ^ 1024 ≤ m then none else some m

/-- The Number for `sign × mathInt` (the last step of `parseInt`). -/
def toNumber (negative : Bool) (mathInt : Nat) : JSNum :=
  match roundToDouble mathInt with
  | some m => .fin (if negative then -(m : Int) else (m : Int))
  | none => if negative then .negInf else .posInf

/-! ## `parseInt(string)` with the radix left out -/

/-- The code points that `parseInt` skips at the start of its argument
(ECMAScript WhiteSpace and LineTerminator). -/
def isWhiteSpace (c : Char) : Bool :=
  let n := c.toNat
  n = 0x09 || n = 0x0A || n = 0x0B || n = 0x0C || n = 0x0D || n = 0x20 ||
  n = 0xA0 || n = 0x1680 || (0x2000 ≤ n && n ≤ 0x200A) || n = 0x2028 ||
  n = 0x2029 || n = 0x202F || n = 0x205F || n = 0x3000 || n = 0xFEFF

/-- The value of a character as a digit, letters standing for 10 to 35. -/
def digitVal (c : Char) : Option Nat :=
  let n := c.toNat
  if 48 ≤ n ∧ n ≤ 57 then some (n - 48)
  else if 97 ≤ n ∧ n ≤ 122 then some (n - 97 + 10)
  else if 65 ≤ n ∧ n ≤ 90 then some (n - 65 + 10)
  else none

/-- The longest prefix of radix-`R` digits, as digit values. -/
def takeDigits (R : Nat) : List Char → List Nat
  | [] => []
  | c :: cs =>
    match digitVal c with
    | some d => if d < R then d :: takeDigits R cs else []
    | none => []

/-- The integer written by a digit list in radix `R`. -/
def mathInt (R : Nat) (ds : List Nat) : Nat :=
  ds.foldl (fun acc d => acc * R + d) 0

/-- The sign step of `parseInt`: a leading `-` or `+` is removed. -/
def stripSign : List Char → Bool × List Char
  | '-' :: r => (true, r)
  | '+' :: r => (false, r)
  | s => (false, s)

/-- The prefix step of `parseInt` with radix 0: `0x` or `0X` selects radix 16. -/
def stripHexMarker : List Char → Nat × List Char
  | '0' :: 'x' :: r => (16, r)
  | '0' :: 'X' :: r => (16, r)
  | s => (10, s)

/-- The builtin `parseInt(value)` on a string, no radix argument. -/
def parseInt (value : String) : JSNum :=
  let s := value.toList.dropWhile isWhiteSpace
  let (negative, s1) := stripSign s
  let (R, s2) := stripHexMarker s1
  let ds := takeDigits R s2
  if ds.isEmpty then .nan else toNumber negative (mathInt R ds)

/-! ## `RestaurantPage.jsx` -/

/-- The `_id` of a menu item, as a property key of the `quantities` object. -/
abbrev ItemId := String

/-- A menu item as returned by `getMenuItemsByRestaurant`; `price` is a decimal
amount that the page only passes on. -/
structure MenuItem where
  _id : ItemId
  name : String
  price : Rat
  category : String
  description : String
  image : Option String
  isAvailable : Bool
  deriving DecidableEq

/-- The object held in the `quantities` state: its own properties, keyed by
item id; `none` is a missing property (reads `undefined`). -/
abbrev Quantities := ItemId → Option JSNum

/-- The initial value `useState({})`. -/
def emptyQuantities : Quantities := fun _ => none

/-- The React state of `RestaurantPage` (the five `useState` cells). -/
structure RestaurantPageState where
  menuItems : List MenuItem
  quantities : Quantities
  isLoading : Bool
  error : String
  success : String

/-- The state on mount. -/
def initialRestaurantPageState : RestaurantPageState :=
  { menuItems := [], quantities := emptyQuantities, isLoading := false,
    error := "", success := "" }

/-- The expression `x || fallback` for an optional string: `undefined` and the
empty string are falsy. -/
def orString (x : Option String) (fallback : String) : String :=
  match x with
  | some v => if v = "" then fallback else v
  | none => fallback

/-- First part of `fetchMenuItems`: `setIsLoading(true)`, then the request. -/
def fetchMenuItems_start (s : RestaurantPageState) : RestaurantPageState :=
  { s with isLoading := true }

/-- Continuation of `fetchMenuItems` when the request resolves; `data` is
`data.data` (`none` when it is missing): `setMenuItems(data.data || [])`,
then the `finally` block. -/
def fetchMenuItems_resolved (s : RestaurantPageState)
    (data : Option (List MenuItem)) : RestaurantPageState :=
  { s with menuItems := data.getD [], isLoading := false }

/-- Continuation of `fetchMenuItems` when the request rejects; `msg` is
`err.response?.data?.error`: the `catch` block, then the `finally` block. -/
def fetchMenuItems_rejected (s : RestaurantPageState)
    (msg : Option String) : RestaurantPageState :=
  { s with error := orString msg "Failed to load menu items", isLoading := false }

/-- The updater passed to `setQuantities` by `handleQuantityChange`:
the previous object spread, then `[itemId]: Math.max(1, parseInt(value) || 1)`. -/
def handleQuantityChange (prev : Quantities) (itemId : ItemId) (value : String) :
    Quantities :=
  fun k => if k = itemId then some (Math.max (.fin 1) ((parseInt value).or (.fin 1)))
    else prev k

/-- The names of the members that every plain object inherits from
`Object.prototype` (ECMAScript, Annex B included). -/
def objectPrototypeKeys : List String :=
  ["constructor", "hasOwnProperty", "isPrototypeOf", "propertyIsEnumerable",
   "toLocaleString", "toString", "valueOf", "__proto__", "__defineGetter__",
   "__defineSetter__", "__lookupGetter__", "__lookupSetter__"]

/-- What reading a property of `quantities` can give: `undefined`, a Number, or
the member of `Object.prototype` of that name (a function, or for `__proto__`
the prototype object itself). -/
inductive JSValue where
  | undefined : JSValue
  | number (n : JSNum) : JSValue
  | inherited (name : String) : JSValue
  deriving DecidableEq

/-- Truthiness of a value: `undefined` is falsy, a Number is as `JSNum.truthy`
says, functions and objects are truthy. -/
def JSValue.truthy : JSValue → Bool
  | .undefined => false
  | .number n => n.truthy
  | .inherited _ => true

/-- The property read `quantities[itemId]`: the own property when there is one,
otherwise what the prototype chain gives. -/
def getProperty (quantities : Quantities) (itemId : ItemId) : JSValue :=
  match quantities itemId with
  | some q => .number q
  | none => if itemId ∈ objectPrototypeKeys then .inherited itemId else .undefined

/-- The expression `quantities[itemId] || 1`. -/
def quantityOrDefault (quantities : Quantities) (itemId : ItemId) : JSValue :=
  if (getProperty quantities itemId).truthy then getProperty quantities itemId
  else .number (.fin 1)

/-- The argument of `addToCart`. -/
structure CartLineRequest where
  restaurant : String
  menuItem : ItemId
  quantity : JSValue
  price : Rat
  deriving DecidableEq

/-- First part of `handleAddToCart`, up to the `await`: both messages are
cleared and the request is built from the current `quantities`; `id` is the
route parameter. -/
def handleAddToCart_call (id : String) (s : RestaurantPageState) (item : MenuItem) :
    RestaurantPageState × CartLineRequest :=
  ({ s with error := "", success := "" },
   { restaurant := id, menuItem := item._id,
     quantity := quantityOrDefault s.quantities item._id, price := item.price })

/-- Continuation of `handleAddToCart` when `addToCart` resolves: the success
message is set; the caller also schedules `setSuccess("")` 3000 ms later. -/
def handleAddToCart_resolved (s : RestaurantPageState) (item : MenuItem) :
    RestaurantPageState :=
  { s with success := item.name ++ " added to cart!" }

/-- Continuation of `handleAddToCart` when `addToCart` rejects; `msg` is
`err.response?.data?.error`. -/
def handleAddToCart_rejected (s : RestaurantPageState) (msg : Option String) :
    RestaurantPageState :=
  { s with error := orString msg "Failed to add item to cart" }

/-- One card of the item grid: the item, the image source, and the value of the
quantity input when the controls are rendered (`item.isAvailable`). -/
structure Card where
  item : MenuItem
  src : String
  controls : Option JSValue
  deriving DecidableEq

/-- The top-level blocks that `RestaurantPage` can render. -/
inductive Block where
  | errorAlert (msg : String)
  | successAlert (msg : String)
  | loadingSkeleton (cells : Nat)
  | emptyState
  | grid (cards : List Card)
  | viewCartButton
  deriving DecidableEq

/-- The card rendered for one menu item; `baseUrl` is
`VITE_API_RESTAURANT_BASE_URL`. -/
def renderCard (baseUrl : String) (quantities : Quantities) (item : MenuItem) : Card :=
  { item := item,
    src := match item.image with
      | some path => if path = "" then "https://via.placeholder.com/300x224?text=No+Image"
          else baseUrl ++ path
      | none => "https://via.placeholder.com/300x224?text=No+Image",
    controls := if item.isAvailable then some (quantityOrDefault quantities item._id)
      else none }

/-- The JSX returned by `RestaurantPage`, as the list of rendered blocks. -/
def render (baseUrl : String) (s : RestaurantPageState) : List Block :=
  (if s.error = "" then [] else [Block.errorAlert s.error]) ++
  (if s.success = "" then [] else [Block.successAlert s.success]) ++
  [if s.isLoading then Block.loadingSkeleton 6
   else if s.menuItems.length = 0 then Block.emptyState
   else Block.grid (s.menuItems.map (renderCard baseUrl s.quantities))] ++
  [Block.viewCartButton]

/-! ### The page over time -/

/-- The page together with what the browser holds for it: the clock in ms, the
due times of the pending `setTimeout(() => setSuccess(""), 3000)` callbacks in
the order they were scheduled, the `addToCart` calls not yet settled, and the
requests sent so far. -/
structure Runtime where
  page : RestaurantPageState
  now : Nat
  timers : List Nat
  inFlight : List MenuItem
  sent : List CartLineRequest

/-- The runtime on mount at time 0. -/
def initialRuntime : Runtime :=
  { page := initialRestaurantPageState, now := 0, timers := [], inFlight := [], sent := [] }

/-- What can happen to a mounted `RestaurantPage`. -/
inductive Event where
  | fetchStart
  | fetchResolved (data : Option (List MenuItem))
  | fetchRejected (msg : Option String)
  | quantityChange (itemId : ItemId) (value : String)
  | addToCartClick (item : MenuItem)
  | addToCartResolved (item : MenuItem)
  | addToCartRejected (item : MenuItem) (msg : Option String)
  | timerFires
  | elapse (ms : Nat)

/-- Whether the event is a click on an "Add to Cart" button. -/
def Event.isAddToCartClick : Event → Bool
  | .addToCartClick _ => true
  | _ => false

/-- One step of the page; `none` when the event cannot happen in this runtime
(a completion with no such call in flight, a timer firing before it is due,
time passing beyond a due timer). -/
def step (id : String) (r : Runtime) : Event → Option Runtime
  | .fetchStart => some { r with page := fetchMenuItems_start r.page }
  | .fetchResolved data => some { r with page := fetchMenuItems_resolved r.page data }
  | .fetchRejected msg => some { r with page := fetchMenuItems_rejected r.page msg }
  | .quantityChange itemId value =>
    some { r with page := { r.page with
      quantities := handleQuantityChange r.page.quantities itemId value } }
  | .addToCartClick item =>
    let out := handleAddToCart_call id r.page item
    some { r with page := out.1, inFlight := r.inFlight ++ [item], sent := r.sent ++ [out.2] }
  | .addToCartResolved item =>
    if item ∈ r.inFlight then
      some { r with page := handleAddToCart_resolved r.page item,
                    inFlight := r.inFlight.erase item,
                    timers := r.timers ++ [r.now + 3000] }
    else none
  | .addToCartRejected item msg =>
    if item ∈ r.inFlight then
      some { r with page := handleAddToCart_rejected r.page msg,
                    inFlight := r.inFlight.erase item }
    else none
  | .timerFires =>
    match r.timers with
    | due :: rest =>
      if due ≤ r.now then some { r with page := { r.page with success := "" }, timers := rest }
      else none
    | [] => none
  | .elapse ms =>
    match r.timers with
    | due :: _ => if r.now + ms ≤ due then some { r with now := r.now + ms } else none
    | [] => some { r with now := r.now + ms }

/-- A sequence of events from a runtime. -/
def run (id : String) : Runtime → List Event → Option Runtime
  | r, [] => some r
  | r, e :: es =>
    match step id r e with
    | some r1 => run id r1 es
    | none => none

/-! ## `PaymentPage.jsx` -/

/-! ### JavaScript Numbers as doubles

The quantities and prices of the order summary are arbitrary Numbers, and the
total is computed with the `+` and `*` of IEEE 754 doubles. -/

/-- A JavaScript Number of arbitrary value: `NaN`, the infinities, or a finite
double, given by the whole number `k` of units of `2^-1074` that it is worth
(every finite double is `k × 2^-1074` for one integer `k`); `-0` and `+0` are
both `finite 0`. -/
inductive Double where
  | nan : Double
  | posInf : Double
  | negInf : Double
  | finite (k : Int) : Double
  deriving DecidableEq, Repr

/-- The number of units of `2^-1074` in 1. -/
def Double.unitsPerOne : Nat := 2 ^ 1074

/-- The double nearest to `a / b` units of `2^-1074` (`b > 0`), ties to even,
negated when `negative`: the quotient is cut to 53 significant bits, the
remainder decides the rounding, and a result of `2^1024` or more is infinite. -/
def Double.roundRatio (negative : Bool) (a b : Nat) : Double :=
  let e := excessBits (a / b) (a / b)
  let u := b * 2 ^ e
  let q := a / u
  let r := a % u
  let q1 := if u < 2 * r ∨ (2 * r = u ∧ q % 2 = 1) then q + 1 else q
  let k := q1 * 2 ^ e
  if 2 ^ 2098 ≤ k then (if negative then .negInf else .posInf)
  else .finite (if negative then -(k : Int) else (k : Int))

/-- The Number denoted by the decimal literal `num / den`. -/
def Double.ofRatio (num den : Nat) : Double :=
  Double.roundRatio false (num * Double.unitsPerOne) den

/-- The Number denoted by an integer literal. -/
def Double.ofNat (n : Nat) : Double :=
  Double.ofRatio n 1

/-- The expression `a + b` on Numbers. -/
def Double.add : Double → Double → Double
  | .nan, _ => .nan
  | _, .nan => .nan
  | .posInf, .negInf => .nan
  | .negInf, .posInf => .nan
  | .posInf, _ => .posInf
  | _, .posInf => .posInf
  | .negInf, _ => .negInf
  | _, .negInf => .negInf
  | .finite a, .finite b => Double.roundRatio (decide (a + b < 0)) (a + b).natAbs 1

/-- The expression `a * b` on Numbers. -/
def Double.mul : Double → Double → Double
  | .nan, _ => .nan
  | _, .nan => .nan
  | .finite a, .finite b =>
    Double.roundRatio (decide (a * b < 0)) (a * b).natAbs Double.unitsPerOne
  | .finite a, .posInf => if a = 0 then .nan else if 0 < a then .posInf else .negInf
  | .finite a, .negInf => if a = 0 then .nan else if 0 < a then .negInf else .posInf
  | .posInf, .finite b => if b = 0 then .nan else if 0 < b then .posInf else .negInf
  | .negInf, .finite b => if b = 0 then .nan else if 0 < b then .negInf else .posInf
  | .posInf, .posInf => .posInf
  | .negInf, .negInf => .posInf
  | .posInf, .negInf => .negInf
  | .negInf, .posInf => .negInf

/-- The Number whose value is the natural number `n`; it is a double when `n`
has at most 53 significant bits. -/
def Double.withValue (n : Nat) : Double :=
  .finite ((n * Double.unitsPerOne : Nat) : Int)

/-- One line of the order summary. -/
structure CartLine where
  item : String
  quantity : Double
  price : Double
  deriving DecidableEq

/-- The hardcoded initial value of the `cartItems` state. -/
def cartItems : List CartLine :=
  [ { item := "Burger", quantity := Double.ofNat 2, price := Double.ofNat 200 },
    { item := "Pizza", quantity := Double.ofNat 1, price := Double.ofNat 500 } ]

/-- The React state of `PaymentPage` (the six `useState` cells). -/
structure PaymentPageState where
  amount : String
  orderId : String
  userId : String
  paymentMethod : String
  paymentStatus : String
  cartItems : List CartLine
  deriving DecidableEq

/-- The state on mount; `dateNow` is the value of `Date.now()`. -/
def initialPaymentPageState (dateNow : Nat) : PaymentPageState :=
  { amount := "", orderId := "ORDER_" ++ toString dateNow, userId := "",
    paymentMethod := "", paymentStatus := "", cartItems := cartItems }

/-- The object `paymentDetails` built by `handlePayment` and POSTed as JSON. -/
structure PaymentDetails where
  order_id : String
  amount : String
  currency : String
  first_name : String
  last_name : String
  email : String
  phone : String
  address : String
  city : String
  country : String
  user_id : String
  payment_method : String
  deriving DecidableEq

/-- The `paymentDetails` literal of `handlePayment`. -/
def paymentDetails (s : PaymentPageState) : PaymentDetails :=
  { order_id := s.orderId,
    amount := "3500.00",
    currency := "LKR",
    first_name := "Saman",
    last_name := "Perera",
    email := "samanp@gmail.com",
    phone := "0771234567",
    address := "No.1, Galle Road",
    city := "Colombo",
    country := "Sri Lanka",
    user_id := s.userId,
    payment_method := s.paymentMethod }

/-- The body of an OK answer of the hash-signing endpoint, after
`response.json()`; a field is `none` when the JSON object lacks it. -/
structure HashReply where
  hash : Option String
  merchant_id : Option String
  deriving DecidableEq

/-- How the `fetch` of `handlePayment` can settle: it rejects, or it resolves
with a response with its `ok` flag and its body (`none` when `response.json()`
rejects). -/
inductive FetchOutcome where
  | rejected
  | response (ok : Bool) (json : Option HashReply)
  deriving DecidableEq

/-- The outcomes that are a failure of the hash-signing POST: a rejection, or a
response whose `ok` flag is false. -/
def FetchOutcome.failed : FetchOutcome → Bool
  | .rejected => true
  | .response ok _ => !ok

/-- The object `payment` handed to `payhere.startPayment`. -/
structure Payment where
  sandbox : Bool
  merchant_id : Option String
  return_url : String
  cancel_url : String
  notify_url : String
  order_id : String
  items : String
  amount : String
  currency : String
  first_name : String
  last_name : String
  email : String
  phone : String
  address : String
  city : String
  country : String
  user_id : String
  payment_method : String
  hash : Option String
  deriving DecidableEq

/-- The `payment` literal of `handlePayment`, from the details it POSTed and
the destructured reply. -/
def payment (d : PaymentDetails) (reply : HashReply) : Payment :=
  { sandbox := true,
    merchant_id := reply.merchant_id,
    return_url := "http://localhost:5173/pay",
    cancel_url := "http://localhost:5173/pay",
    notify_url :=
      "https://2204-2402-4000-2260-e928-7862-8cd3-11ba-9289.ngrok-free.app/payment/notify",
    order_id := d.order_id,
    items := "Item Title",
    amount := d.amount,
    currency := d.currency,
    first_name := d.first_name,
    last_name := d.last_name,
    email := d.email,
    phone := d.phone,
    address := d.address,
    city := d.city,
    country := d.country,
    user_id := d.user_id,
    payment_method := d.payment_method,
    hash := reply.hash }

/-- The calls `handlePayment` makes to the outside, in program order. -/
inductive Effect where
  | consoleLog (msg : String)
  | consoleLogResponse
  | fetchPost (url : String) (contentType : String) (body : PaymentDetails)
  | startPayment (p : Payment)
  | consoleError (msg : String)
  deriving DecidableEq

/-- The handler `handlePayment`: the calls it makes for a form state and an
outcome of its `fetch`. It sets no state. The checkout library `payhere` is
taken to be loaded. -/
def handlePayment (s : PaymentPageState) (outcome : FetchOutcome) : List Effect :=
  let details := paymentDetails s
  [Effect.consoleLog "Payment started",
   Effect.fetchPost "http://localhost:5005/payment/start" "application/json" details] ++
  match outcome with
  | .rejected => [Effect.consoleError "An error occurred:"]
  | .response true (some reply) =>
    [Effect.consoleLogResponse, Effect.startPayment (payment details reply)]
  | .response true none => [Effect.consoleLogResponse, Effect.consoleError "An error occurred:"]
  | .response false _ => [Effect.consoleError "Failed to generate hash for payment."]

/-- The descriptors passed to `payhere.startPayment` in a list of calls. -/
def startPaymentCalls : List Effect → List Payment
  | [] => []
  | .startPayment p :: rest => p :: startPaymentCalls rest
  | _ :: rest => startPaymentCalls rest

/-- The bodies POSTed in a list of calls. -/
def postedBodies : List Effect → List PaymentDetails
  | [] => []
  | .fetchPost _ _ body :: rest => body :: postedBodies rest
  | _ :: rest => postedBodies rest

/-- The handler `handlePaymentMethodChange`; `value` is `e.target.value`. -/
def handlePaymentMethodChange (s : PaymentPageState) (value : String) : PaymentPageState :=
  { s with paymentMethod := value,
           paymentStatus := if value = "cash" then "Pending" else "Success" }

/-- What the user can do on `PaymentPage`. -/
inductive PaymentEvent where
  | setOrderId (value : String)
  | setAmount (value : String)
  | setUserId (value : String)
  | selectPaymentMethod (value : String)
  | proceedWithPayment (outcome : FetchOutcome)

/-- One user action on `PaymentPage`: the next state and the calls made. -/
def paymentStep (s : PaymentPageState) : PaymentEvent → PaymentPageState × List Effect
  | .setOrderId v => ({ s with orderId := v }, [])
  | .setAmount v => ({ s with amount := v }, [])
  | .setUserId v => ({ s with userId := v }, [])
  | .selectPaymentMethod v => (handlePaymentMethodChange s v, [])
  | .proceedWithPayment outcome => (s, handlePayment s outcome)

/-- The state after a sequence of user actions. -/
def paymentRun (s : PaymentPageState) (es : List PaymentEvent) : PaymentPageState :=
  es.foldl (fun st e => (paymentStep st e).1) s

/-- The total cell of the order summary:
`cartItems.reduce((acc, item) => acc + item.price * item.quantity, 0)`. -/
def orderTotal (items : List CartLine) : Double :=
  items.foldl (fun acc item => Double.add acc (Double.mul item.price item.quantity))
    (Double.ofNat 0)

/-- A cart line whose quantity and price are natural numbers. -/
structure IntegerLine where
  item : String
  quantity : Nat
  price : Nat
  deriving DecidableEq

/-- The cart line with these natural numbers as its Numbers. -/
def IntegerLine.toCartLine (l : IntegerLine) : CartLine :=
  { item := l.item, quantity := Double.ofNat l.quantity, price := Double.ofNat l.price }

/-- The total as the specification words it: the sum over the lines of
quantity times price, in exact arithmetic. -/
def specTotal (lines : List IntegerLine) : Nat :=
  (lines.map (fun l => l.quantity * l.price)).sum

/-- The `quantities` object after a sequence of `handleQuantityChange` calls,
each an item id with the input string, starting from the empty object. -/
def reachableQuantities (edits : List (ItemId × String)) : Quantities :=
  edits.foldl (fun q e => handleQuantityChange q e.1 e.2) emptyQuantities

/-- The input string of the last `handleQuantityChange` call for an item in a
sequence of calls; `none` when the item was never edited. -/
def lastEdit (edits : List (ItemId × String)) (k : ItemId) : Option String :=
  edits.foldl (fun acc e => if e.1 = k then some e.2 else acc) none

/-! ### The value of the quantity input

The handler is called from `onChange` with `e.target.value` of an
`<input type="number">`, whose value the browser sanitizes. -/

/-- Whether a character is an ASCII digit. -/
def isAsciiDigit (c : Char) : Bool :=
  48 ≤ c.toNat && c.toNat ≤ 57

/-- The number written by a list of ASCII digits. -/
def decimalValue (ds : List Char) : Nat :=
  ds.foldl (fun acc c => acc * 10 + (c.toNat - 48)) 0

/-- A string that is a valid floating-point number of HTML: its sign, the
number written by its integer and fraction digits together, the number of
fraction digits, and its exponent. -/
structure FloatLiteral where
  negative : Bool
  mantissa : Nat
  fracDigits : Nat
  exponent : Int
  deriving DecidableEq

/-- The exponent part of a valid floating-point number: nothing, or `e` or `E`,
an optional sign and at least one digit, up to the end of the string. -/
def parseExponent : List Char → Option Int
  | [] => some 0
  | c :: r =>
    if c = 'e' ∨ c = 'E' then
      let signed : Bool × List Char :=
        match r with
        | '-' :: t => (true, t)
        | '+' :: t => (false, t)
        | _ => (false, r)
      if signed.2.isEmpty || !signed.2.all isAsciiDigit then none
      else some (if signed.1 then -(decimalValue signed.2 : Int) else (decimalValue signed.2 : Int))
    else none

/-- The HTML grammar of a valid floating-point number: an optional `-`, then
digits, or optional digits with a `.` and at least one digit, then an optional
exponent. -/
def parseFloatLiteral (s : List Char) : Option FloatLiteral :=
  let signed : Bool × List Char :=
    match s with
    | '-' :: r => (true, r)
    | _ => (false, s)
  let intPart := signed.2.takeWhile isAsciiDigit
  match signed.2.dropWhile isAsciiDigit with
  | '.' :: r =>
    let fracPart := r.takeWhile isAsciiDigit
    if fracPart.isEmpty then none
    else (parseExponent (r.dropWhile isAsciiDigit)).map fun e =>
      { negative := signed.1, mantissa := decimalValue (intPart ++ fracPart),
        fracDigits := fracPart.length, exponent := e }
  | rest =>
    if intPart.isEmpty then none
    else (parseExponent rest).map fun e =>
      { negative := signed.1, mantissa := decimalValue intPart, fracDigits := 0, exponent := e }

/-- Whether the value `mantissa × 10^(exponent - fracDigits)` rounds to a finite
double, that is, lies below `2^1024 - 2^970`. -/
def FloatLiteral.isFinite (f : FloatLiteral) : Bool :=
  let shift := f.exponent - (f.fracDigits : Int)
  if 0 ≤ shift then decide (f.mantissa * 10 ^ shift.toNat < 2 ^ 1024 - 2 ^ 970)
  else decide (f.mantissa < (2 ^ 1024 - 2 ^ 970) * 10 ^ (-shift).toNat)

/-- The value sanitization of `<input type="number">` as browsers and jsdom do
it: a valid floating-point number with a finite value is kept, any other string
becomes the empty string. -/
def sanitizeNumberValue (typed : String) : String :=
  match parseFloatLiteral typed.toList with
  | some f => if f.isFinite then typed else ""
  | none => ""

/-- An input string of 315 characters that is a valid floating-point number of
value 1: the digit 1, 309 zeros, and the exponent `e-309`. -/
def overflowingInput : String := "1" ++ String.mk (List.replicate 309 '0') ++ "e-309"

/-- A sample menu item. -/
def burger : MenuItem :=
  { _id := "m1", name := "Burger", price := 200, category := "mains",
    description := "beef burger", image := none, isAvailable := true }

/-- A second sample menu item. -/
def pizza : MenuItem :=
  { _id := "m2", name := "Pizza", price := 500, category := "mains",
    description := "margherita", image := some "/uploads/pizza.png", isAvailable := true }

/-- The property that a success message, once set by a completed add-to-cart,
is still the displayed success message at every later moment less than 3000 ms
after it was set, as long as no new add-to-cart is started in between. -/
def SuccessMessageHeld : Prop :=
  ∀ (id : String) (before : List Event) (item : MenuItem) (after : List Event)
    (r0 r1 r2 : Runtime),
    run id initialRuntime before = some r0 →
    step id r0 (.addToCartResolved item) = some r1 →
    run id r1 after = some r2 →
    (∀ e ∈ after, e.isAddToCartClick = false) →
    r2.now < r1.now + 3000 →
    r2.page.success = item.name ++ " added to cart!"

end UberEats

namespace UberEats

/-! ## Facts about the model used below -/

theorem clamp_cases (x : JSNum) :
    (∃ n : Int, 1 ≤ n ∧ Math.max (.fin 1) (x.or (.fin 1)) = .fin n) ∨
    (Math.max (.fin 1) (x.or (.fin 1)) = .posInf ∧ x = .posInf) := by
  cases x with
  | nan => left; exact ⟨1, le_refl _, by simp [JSNum.or, JSNum.truthy, Math.max]⟩
  | posInf => right; simp [JSNum.or, JSNum.truthy, Math.max]
  | negInf => left; exact ⟨1, le_refl _, by simp [JSNum.or, JSNum.truthy, Math.max]⟩
  | fin z =>
    left
    by_cases hz : z = 0
    · exact ⟨1, le_refl _, by simp [JSNum.or, JSNum.truthy, Math.max, hz]⟩
    · by_cases h1 : 1 < z
      · exact ⟨z, le_of_lt h1, by simp [JSNum.or, JSNum.truthy, Math.max, hz, h1]⟩
      · exact ⟨1, le_refl _, by simp [JSNum.or, JSNum.truthy, Math.max, hz, h1]⟩

/-- What an edit stores is truthy. -/
theorem clamp_truthy (x : JSNum) :
    (Math.max (.fin 1) (x.or (.fin 1))).truthy = true := by
  rcases clamp_cases x with ⟨n, hn, h⟩ | ⟨h, _⟩
  · rw [h]
    have : n ≠ 0 := by omega
    simp [JSNum.truthy, this]
  · rw [h]
    rfl

/-- Every entry of a reachable `quantities` object is what the last edit of
that item stored, and an item that was never edited has no entry. -/
theorem reachableQuantities_eq (edits : List (ItemId × String)) (k : ItemId) :
    reachableQuantities edits k =
      (lastEdit edits k).map (fun v => Math.max (.fin 1) ((parseInt v).or (.fin 1))) := by
  induction edits using List.reverseRecOn with
  | nil => rfl
  | append_singleton es e ih =>
    have hstep : reachableQuantities (es ++ [e]) =
        handleQuantityChange (reachableQuantities es) e.1 e.2 := by
      simp [reachableQuantities, List.foldl_append]
    have hlast : lastEdit (es ++ [e]) k = if e.1 = k then some e.2 else lastEdit es k := by
      simp [lastEdit, List.foldl_append]
    rw [hstep, hlast]
    by_cases hk : k = e.1
    · subst hk
      simp [handleQuantityChange]
    · have hk2 : ¬ e.1 = k := fun h => hk h.symm
      simp [handleQuantityChange, hk, hk2, ih]

/-- The quantity read for an item that has an own entry `q` that is
truthy is `q`. -/
theorem quantityOrDefault_own (quantities : Quantities) (k : ItemId) (q : JSNum)
    (hq : quantities k = some q) (ht : q.truthy = true) :
    quantityOrDefault quantities k = .number q := by
  simp [quantityOrDefault, getProperty, hq, JSValue.truthy, ht]

/-- The quantity read for an item without an own entry is the inherited member
when the id names one, and the default 1 otherwise. -/
theorem quantityOrDefault_absent (quantities : Quantities) (k : ItemId)
    (hq : quantities k = none) :
    (k ∉ objectPrototypeKeys → quantityOrDefault quantities k = .number (.fin 1)) ∧
    (k ∈ objectPrototypeKeys → quantityOrDefault quantities k = .inherited k) := by
  constructor
  · intro hk
    simp [quantityOrDefault, getProperty, hq, hk, JSValue.truthy]
  · intro hk
    simp [quantityOrDefault, getProperty, hq, hk, JSValue.truthy]

set_option exponentiation.threshold 2048 in
set_option maxRecDepth 100000 in
/-- The model of `parseInt` on sample strings: leading white space and a sign
are accepted, the digit run stops at the first non-digit, `0x` selects radix 16,
a string without digits gives `NaN`, and a value beyond `2^53` is rounded. -/
theorem parseInt_samples :
    parseInt "5" = .fin 5 ∧ parseInt " \t42px" = .fin 42 ∧ parseInt "2.7" = .fin 2 ∧
    parseInt "1e5" = .fin 1 ∧ parseInt "-3" = .fin (-3) ∧ parseInt "+7" = .fin 7 ∧
    parseInt "0x1F" = .fin 31 ∧ parseInt "" = .nan ∧ parseInt "abc" = .nan ∧
    parseInt "-" = .nan ∧ parseInt "0x" = .nan ∧ parseInt "-0" = .fin 0 ∧
    parseInt "9007199254740993" = .fin 9007199254740992 := by
  decide

/-- A step other than an add-to-cart click, taken when no `addToCart` call is
in flight and at most the timer due at `d` is pending, keeps this shape: either
the timer is pending, the message is displayed and the clock is at most `d`, or
the timer has fired, the message is cleared and the clock is at least `d`. -/
theorem step_keeps_single_timer (id : String) (msg : String) (d : Nat) (r r1 : Runtime)
    (e : Event) (hclick : e.isAddToCartClick = false) (hstep : step id r e = some r1)
    (hfl : r.inFlight = [])
    (hinv : (r.timers = [d] ∧ r.page.success = msg ∧ r.now ≤ d) ∨
            (r.timers = [] ∧ r.page.success = "" ∧ d ≤ r.now)) :
    r1.inFlight = [] ∧
    ((r1.timers = [d] ∧ r1.page.success = msg ∧ r1.now ≤ d) ∨
     (r1.timers = [] ∧ r1.page.success = "" ∧ d ≤ r1.now)) := by
  cases e with
  | fetchStart =>
    simp only [step, Option.some.injEq] at hstep
    subst hstep
    exact ⟨hfl, hinv⟩
  | fetchResolved data =>
    simp only [step, Option.some.injEq] at hstep
    subst hstep
    exact ⟨hfl, hinv⟩
  | fetchRejected m =>
    simp only [step, Option.some.injEq] at hstep
    subst hstep
    exact ⟨hfl, hinv⟩
  | quantityChange i v =>
    simp only [step, Option.some.injEq] at hstep
    subst hstep
    exact ⟨hfl, hinv⟩
  | addToCartClick item => simp [Event.isAddToCartClick] at hclick
  | addToCartResolved item => simp [step, hfl] at hstep
  | addToCartRejected item m => simp [step, hfl] at hstep
  | timerFires =>
    rcases hinv with ⟨ht, _, _⟩ | ⟨ht, _, _⟩
    · simp only [step, ht] at hstep
      by_cases hd : d ≤ r.now
      · simp only [hd, if_true, Option.some.injEq] at hstep
        subst hstep
        exact ⟨hfl, Or.inr ⟨rfl, rfl, hd⟩⟩
      · simp [hd] at hstep
    · simp [step, ht] at hstep
  | elapse ms =>
    rcases hinv with ⟨ht, hs, hn⟩ | ⟨ht, hs, hn⟩
    · simp only [step, ht] at hstep
      by_cases hd : r.now + ms ≤ d
      · simp only [hd, if_true, Option.some.injEq] at hstep
        subst hstep
        exact ⟨hfl, Or.inl ⟨rfl, hs, hd⟩⟩
      · simp [hd] at hstep
    · simp only [step, ht, Option.some.injEq] at hstep
      subst hstep
      exact ⟨hfl, Or.inr ⟨rfl, hs, Nat.le_add_right_of_le hn⟩⟩

/-- The shape of `step_keeps_single_timer` is kept along a run without
add-to-cart clicks. -/
theorem run_keeps_single_timer (id : String) (msg : String) (d : Nat) (es : List Event) :
    ∀ (r r2 : Runtime), (∀ e ∈ es, e.isAddToCartClick = false) →
      run id r es = some r2 → r.inFlight = [] →
      ((r.timers = [d] ∧ r.page.success = msg ∧ r.now ≤ d) ∨
       (r.timers = [] ∧ r.page.success = "" ∧ d ≤ r.now)) →
      ((r2.timers = [d] ∧ r2.page.success = msg ∧ r2.now ≤ d) ∨
       (r2.timers = [] ∧ r2.page.success = "" ∧ d ≤ r2.now)) := by
  induction es with
  | nil =>
    intro r r2 _ hrun _ hinv
    simp only [run, Option.some.injEq] at hrun
    subst hrun
    exact hinv
  | cons e es ih =>
    intro r r2 hclicks hrun hfl hinv
    simp only [run] at hrun
    cases hs : step id r e with
    | none => simp [hs] at hrun
    | some r1 =>
      simp only [hs] at hrun
      have hk := step_keeps_single_timer id msg d r r1 e
        (hclicks e (List.mem_cons_self e es)) hs hfl hinv
      exact ih r1 r2 (fun x hx => hclicks x (List.mem_cons_of_mem e hx)) hrun hk.1 hk.2

/-- What the code does guarantee about the success message: when an add-to-cart
completes while no other call is in flight and no earlier timer is pending,
then along every run without a new add-to-cart click the message is displayed
at every moment before 3000 ms have passed and is cleared at every moment after
that, and time cannot pass the 3000 ms mark without the timer firing. -/
theorem success_message_held_when_alone (id : String) (item : MenuItem)
    (r0 r1 r2 : Runtime) (after : List Event)
    (htimers : r0.timers = []) (hfl : r0.inFlight = [item])
    (hstep : step id r0 (.addToCartResolved item) = some r1)
    (hrun : run id r1 after = some r2)
    (hclicks : ∀ e ∈ after, e.isAddToCartClick = false) :
    r1.page.success = item.name ++ " added to cart!" ∧
    (r2.now < r1.now + 3000 → r2.page.success = item.name ++ " added to cart!") ∧
    (r1.now + 3000 < r2.now → r2.page.success = "") ∧
    (r2.now = r1.now + 3000 → r2.timers = [] → r2.page.success = "") := by
  simp only [step, hfl, List.mem_singleton, if_true, Option.some.injEq] at hstep
  subst hstep
  have hinv := run_keeps_single_timer id (item.name ++ " added to cart!") (r0.now + 3000)
    after _ r2 hclicks hrun (by simp) (Or.inl ⟨by simp [htimers], rfl, Nat.le_add_right _ _⟩)
  refine ⟨rfl, ?_, ?_, ?_⟩
  · intro hlt
    rcases hinv with ⟨_, hs, _⟩ | ⟨_, _, hn⟩
    · exact hs
    · exact absurd hlt (by simpa using hn)
  · intro hgt
    rcases hinv with ⟨_, _, hn⟩ | ⟨_, hs, _⟩
    · exact absurd hgt (by simpa using hn)
    · exact hs
  · intro _ hnil
    rcases hinv with ⟨ht, _, _⟩ | ⟨_, hs, _⟩
    · rw [hnil] at ht
      exact absurd ht (by simp)
    · exact hs

/-- Every name of `objectPrototypeKeys` reads as the inherited member on the
empty object, and any other key reads as the default 1. -/
theorem inherited_members :
    quantityOrDefault emptyQuantities "constructor" = .inherited "constructor" ∧
    quantityOrDefault emptyQuantities "hasOwnProperty" = .inherited "hasOwnProperty" ∧
    quantityOrDefault emptyQuantities "isPrototypeOf" = .inherited "isPrototypeOf" ∧
    quantityOrDefault emptyQuantities "propertyIsEnumerable"
      = .inherited "propertyIsEnumerable" ∧
    quantityOrDefault emptyQuantities "toLocaleString" = .inherited "toLocaleString" ∧
    quantityOrDefault emptyQuantities "toString" = .inherited "toString" ∧
    quantityOrDefault emptyQuantities "valueOf" = .inherited "valueOf" ∧
    quantityOrDefault emptyQuantities "__proto__" = .inherited "__proto__" ∧
    quantityOrDefault emptyQuantities "__defineGetter__" = .inherited "__defineGetter__" ∧
    quantityOrDefault emptyQuantities "__defineSetter__" = .inherited "__defineSetter__" ∧
    quantityOrDefault emptyQuantities "__lookupGetter__" = .inherited "__lookupGetter__" ∧
    quantityOrDefault emptyQuantities "__lookupSetter__" = .inherited "__lookupSetter__" ∧
    quantityOrDefault emptyQuantities "64f1c0ffee0123456789abcd" = .number (.fin 1) ∧
    quantityOrDefault emptyQuantities "Constructor" = .number (.fin 1) ∧
    quantityOrDefault (handleQuantityChange emptyQuantities "constructor" "3") "constructor"
      = .number (.fin 3) := by
  decide

set_option exponentiation.threshold 2048 in
set_option maxRecDepth 100000 in
/-- The model of the number input on sample strings: valid floating-point
numbers of finite value are kept, among them `overflowingInput`; a string that
is no such number, or whose value is not finite, as the digit 1 followed by 309
zeros, becomes the empty string. -/
theorem sanitizeNumberValue_samples :
    sanitizeNumberValue "5" = "5" ∧ sanitizeNumberValue "-3" = "-3" ∧
    sanitizeNumberValue "2.7" = "2.7" ∧ sanitizeNumberValue ".5" = ".5" ∧
    sanitizeNumberValue "1e5" = "1e5" ∧ sanitizeNumberValue "1E+5" = "1E+5" ∧
    sanitizeNumberValue "007" = "007" ∧ sanitizeNumberValue "1e-400" = "1e-400" ∧
    sanitizeNumberValue "" = "" ∧ sanitizeNumberValue "abc" = "" ∧
    sanitizeNumberValue "+3" = "" ∧ sanitizeNumberValue "5." = "" ∧
    sanitizeNumberValue " 5" = "" ∧ sanitizeNumberValue "0x10" = "" ∧
    sanitizeNumberValue "1e" = "" ∧ sanitizeNumberValue "1e309" = "" ∧
    sanitizeNumberValue ("1" ++ String.mk (List.replicate 309 '0')) = "" ∧
    sanitizeNumberValue overflowingInput = overflowingInput := by
  decide

/-! ## C1 -/

/-- C1: for every `quantities` object, item id and input string `v`,
`handleQuantityChange` stores `Math.max(1, parseInt(v) || 1)` under that id:
when `parseInt(v)` is an integer `n ≥ 1` it stores `n`, and when `parseInt(v)`
is `NaN`, zero or a negative integer it stores exactly 1. -/
theorem handleQuantityChange_stores_clamped (prev : Quantities) (itemId : ItemId)
    (v : String) :
    handleQuantityChange prev itemId v itemId =
        some (Math.max (.fin 1) ((parseInt v).or (.fin 1))) ∧
    (∀ n : Int, 1 ≤ n → parseInt v = .fin n →
        handleQuantityChange prev itemId v itemId = some (.fin n)) ∧
    (parseInt v = .nan → handleQuantityChange prev itemId v itemId = some (.fin 1)) ∧
    (∀ n : Int, n ≤ 0 → parseInt v = .fin n →
        handleQuantityChange prev itemId v itemId = some (.fin 1)) := by
  refine ⟨by simp [handleQuantityChange], ?_, ?_, ?_⟩
  · intro n hn hp
    have h0 : n ≠ 0 := by omega
    by_cases h1 : 1 < n
    · simp [handleQuantityChange, hp, JSNum.or, JSNum.truthy, Math.max, h0, h1]
    · have : n = 1 := by omega
      simp [handleQuantityChange, hp, JSNum.or, JSNum.truthy, Math.max, this]
  · intro hp
    simp [handleQuantityChange, hp, JSNum.or, JSNum.truthy, Math.max]
  · intro n hn hp
    by_cases h0 : n = 0
    · simp [handleQuantityChange, hp, JSNum.or, JSNum.truthy, Math.max, h0]
    · have h1 : ¬ 1 < n := by omega
      simp [handleQuantityChange, hp, JSNum.or, JSNum.truthy, Math.max, h0, h1]

/-- C1 at concrete inputs: "5" stores 5, "abc" stores 1, "0" stores 1 and "-3"
stores 1. -/
theorem handleQuantityChange_stores_clamped_witness :
    (parseInt "5" = .fin 5 ∧
      handleQuantityChange emptyQuantities "m1" "5" "m1" = some (.fin 5)) ∧
    (parseInt "abc" = .nan ∧
      handleQuantityChange emptyQuantities "m1" "abc" "m1" = some (.fin 1)) ∧
    (parseInt "0" = .fin 0 ∧
      handleQuantityChange emptyQuantities "m1" "0" "m1" = some (.fin 1)) ∧
    (parseInt "-3" = .fin (-3) ∧
      handleQuantityChange emptyQuantities "m1" "-3" "m1" = some (.fin 1)) :=
  ⟨⟨by decide, (handleQuantityChange_stores_clamped emptyQuantities "m1" "5").2.1 5
      (by decide) (by decide)⟩,
   ⟨by decide, (handleQuantityChange_stores_clamped emptyQuantities "m1" "abc").2.2.1
      (by decide)⟩,
   ⟨by decide, (handleQuantityChange_stores_clamped emptyQuantities "m1" "0").2.2.2 0
      (by decide) (by decide)⟩,
   ⟨by decide, (handleQuantityChange_stores_clamped emptyQuantities "m1" "-3").2.2.2 (-3)
      (by decide) (by decide)⟩⟩

/-! ## C9 -/

/-- C9 as stated fails: in the empty `quantities` object, after the item "m1" is
edited, the id "constructor" is still absent, but it does not read as the
default 1: `quantities["constructor"] || 1` is the member `constructor`
inherited from `Object.prototype`, before the edit and after it. -/
theorem absent_entry_can_read_inherited :
    handleQuantityChange emptyQuantities "m1" "5" "constructor" = none ∧
    quantityOrDefault emptyQuantities "constructor" = .inherited "constructor" ∧
    quantityOrDefault (handleQuantityChange emptyQuantities "m1" "5") "constructor"
      = .inherited "constructor" ∧
    quantityOrDefault (handleQuantityChange emptyQuantities "m1" "5") "constructor"
      ≠ .number (.fin 1) := by
  decide

/-- C9, amended: `handleQuantityChange(i, v)` changes only the entry for `i`,
which becomes `Math.max(1, parseInt(v) || 1)`: the entry of every other id `j`
is the one it was, the value read for `j` by `quantities[j] || 1` is the one it
was, an absent entry stays absent and still reads as it did, which is the
default 1 unless `j` names a member of `Object.prototype` and the inherited
member if it does, and the card rendered for an item other than `i` is the one
it was. -/
theorem handleQuantityChange_frame (prev : Quantities) (i : ItemId) (v : String) :
    handleQuantityChange prev i v i = some (Math.max (.fin 1) ((parseInt v).or (.fin 1))) ∧
    (∀ j, j ≠ i → handleQuantityChange prev i v j = prev j) ∧
    (∀ j, j ≠ i →
      quantityOrDefault (handleQuantityChange prev i v) j = quantityOrDefault prev j) ∧
    (∀ j, j ≠ i → prev j = none →
      handleQuantityChange prev i v j = none ∧
      (j ∉ objectPrototypeKeys →
        quantityOrDefault (handleQuantityChange prev i v) j = .number (.fin 1)) ∧
      (j ∈ objectPrototypeKeys →
        quantityOrDefault (handleQuantityChange prev i v) j = .inherited j)) ∧
    (∀ (baseUrl : String) (item : MenuItem), item._id ≠ i →
      renderCard baseUrl (handleQuantityChange prev i v) item = renderCard baseUrl prev item) := by
  have key : ∀ j, j ≠ i → handleQuantityChange prev i v j = prev j := by
    intro j hj
    simp [handleQuantityChange, hj]
  refine ⟨by simp [handleQuantityChange], key, ?_, ?_, ?_⟩
  · intro j hj
    simp [quantityOrDefault, getProperty, key j hj]
  · intro j hj hnone
    have habs : handleQuantityChange prev i v j = none := (key j hj).trans hnone
    exact ⟨habs, quantityOrDefault_absent _ j habs⟩
  · intro baseUrl item hitem
    simp [renderCard, quantityOrDefault, getProperty, key item._id hitem]

/-- C9, amended, at a concrete input: after "m1" is set to 4, editing "m2"
leaves the entry of "m1" at 4, read as 4, leaves the absent "m3" absent, read
as 1, and leaves the absent "toString" absent, read as the inherited member. -/
theorem handleQuantityChange_frame_witness :
    handleQuantityChange (handleQuantityChange emptyQuantities "m1" "4") "m2" "7" "m1"
        = some (.fin 4) ∧
    quantityOrDefault
        (handleQuantityChange (handleQuantityChange emptyQuantities "m1" "4") "m2" "7") "m1"
        = .number (.fin 4) ∧
    (handleQuantityChange (handleQuantityChange emptyQuantities "m1" "4") "m2" "7" "m3"
        = none ∧
      quantityOrDefault
        (handleQuantityChange (handleQuantityChange emptyQuantities "m1" "4") "m2" "7") "m3"
        = .number (.fin 1)) ∧
    quantityOrDefault
        (handleQuantityChange (handleQuantityChange emptyQuantities "m1" "4") "m2" "7")
        "toString" = .inherited "toString" :=
  ⟨((handleQuantityChange_frame (handleQuantityChange emptyQuantities "m1" "4")
      "m2" "7").2.1 "m1" (by decide)).trans (by decide),
   ((handleQuantityChange_frame (handleQuantityChange emptyQuantities "m1" "4")
      "m2" "7").2.2.1 "m1" (by decide)).trans (by decide),
   ⟨((handleQuantityChange_frame (handleQuantityChange emptyQuantities "m1" "4")
      "m2" "7").2.2.2.1 "m3" (by decide) (by decide)).1,
    ((handleQuantityChange_frame (handleQuantityChange emptyQuantities "m1" "4")
      "m2" "7").2.2.2.1 "m3" (by decide) (by decide)).2.1 (by decide)⟩,
   ((handleQuantityChange_frame (handleQuantityChange emptyQuantities "m1" "4")
      "m2" "7").2.2.2.1 "toString" (by decide) (by decide)).2.2 (by decide)⟩

/-! ## C8 -/

set_option exponentiation.threshold 2048 in
set_option maxRecDepth 100000 in
/-- C8 as stated fails in two ways. The number input keeps the 315-character
string `overflowingInput`, a valid floating-point number of value 1; `parseInt`
reads its 310 digits and returns `Infinity`, and after that edit of "m1" the
quantity that `handleAddToCart` sends for "m1" is `Infinity`, no integer. And
for a never edited item whose `_id` is "constructor" the quantity sent is not 1
but the member `constructor` inherited from `Object.prototype`. -/
theorem quantity_sent_not_positive_integer :
    sanitizeNumberValue overflowingInput = overflowingInput ∧
    parseInt overflowingInput = .posInf ∧
    (handleAddToCart_call "r1"
      { initialRestaurantPageState with
        quantities := reachableQuantities [("m1", sanitizeNumberValue overflowingInput)] }
      burger).2.quantity = .number .posInf ∧
    (¬ ∃ n : Int, 1 ≤ n ∧
      (handleAddToCart_call "r1"
        { initialRestaurantPageState with
          quantities := reachableQuantities [("m1", sanitizeNumberValue overflowingInput)] }
        burger).2.quantity = .number (.fin n)) ∧
    (handleAddToCart_call "r1"
      { initialRestaurantPageState with quantities := reachableQuantities [] }
      { burger with _id := "constructor" }).2.quantity = .inherited "constructor" := by
  have hs : sanitizeNumberValue overflowingInput = overflowingInput := by decide
  have hp : parseInt overflowingInput = .posInf := by decide
  have hq : (handleAddToCart_call "r1"
      { initialRestaurantPageState with
        quantities := reachableQuantities [("m1", sanitizeNumberValue overflowingInput)] }
      burger).2.quantity = .number .posInf := by
    rw [hs]
    simp [handleAddToCart_call, quantityOrDefault, getProperty, reachableQuantities,
      handleQuantityChange, burger, hp, JSNum.or, JSNum.truthy, JSValue.truthy, Math.max]
  refine ⟨hs, hp, hq, ?_, by decide⟩
  rintro ⟨n, _, hn⟩
  rw [hq] at hn
  simp at hn

/-- C8, amended: for every `quantities` object reachable from the empty one by
`handleQuantityChange` calls with arbitrary input strings, and every item: if
the item was edited, the quantity that `handleAddToCart` sends is
`Math.max(1, parseInt(v) || 1)` for the input `v` of its last edit, which is
an integer `n ≥ 1` unless `parseInt(v)` is `Infinity`, and `Infinity` if it is;
if the item was never edited, the quantity sent is 1 unless its `_id` names a
member of `Object.prototype`, and the inherited member if it does. -/
theorem quantity_sent_from_last_edit (id : String) (s : RestaurantPageState)
    (edits : List (ItemId × String)) (item : MenuItem)
    (hs : s.quantities = reachableQuantities edits) :
    (∀ v, lastEdit edits item._id = some v →
      (handleAddToCart_call id s item).2.quantity =
        .number (Math.max (.fin 1) ((parseInt v).or (.fin 1))) ∧
      (parseInt v ≠ .posInf →
        ∃ n : Int, 1 ≤ n ∧ (handleAddToCart_call id s item).2.quantity = .number (.fin n)) ∧
      (parseInt v = .posInf →
        (handleAddToCart_call id s item).2.quantity = .number .posInf)) ∧
    (lastEdit edits item._id = none →
      (item._id ∉ objectPrototypeKeys →
        (handleAddToCart_call id s item).2.quantity = .number (.fin 1)) ∧
      (item._id ∈ objectPrototypeKeys →
        (handleAddToCart_call id s item).2.quantity = .inherited item._id)) := by
  have hq : (handleAddToCart_call id s item).2.quantity =
      quantityOrDefault (reachableQuantities edits) item._id := by
    simp [handleAddToCart_call, hs]
  rw [hq]
  have hentry := reachableQuantities_eq edits item._id
  constructor
  · intro v hv
    rw [hv] at hentry
    have hval : quantityOrDefault (reachableQuantities edits) item._id =
        .number (Math.max (.fin 1) ((parseInt v).or (.fin 1))) :=
      quantityOrDefault_own _ _ _ hentry (clamp_truthy (parseInt v))
    refine ⟨hval, ?_, ?_⟩
    · intro hne
      rcases clamp_cases (parseInt v) with ⟨n, hn, h⟩ | ⟨_, hinf⟩
      · exact ⟨n, hn, by rw [hval, h]⟩
      · exact absurd hinf hne
    · intro hinf
      rw [hval, hinf]
      rfl
  · intro hnone
    rw [hnone] at hentry
    exact quantityOrDefault_absent _ _ hentry

set_option exponentiation.threshold 2048 in
set_option maxRecDepth 100000 in
/-- C8, amended, at concrete inputs: after the edits "3" and then "7" of "m2",
the quantity sent for "m2" is 7; after the edit `overflowingInput` of "m1" it is
`Infinity`; for the never edited "m1" it is 1; and for a never edited item
whose `_id` is "valueOf" it is the inherited member. -/
theorem quantity_sent_from_last_edit_witness :
    (handleAddToCart_call "r1"
      { initialRestaurantPageState with
        quantities := reachableQuantities [("m2", "3"), ("m1", "abc"), ("m2", "7")] }
      pizza).2.quantity = .number (.fin 7) ∧
    (handleAddToCart_call "r1"
      { initialRestaurantPageState with
        quantities := reachableQuantities [("m1", "2"), ("m1", overflowingInput)] }
      burger).2.quantity = .number .posInf ∧
    (handleAddToCart_call "r1"
      { initialRestaurantPageState with quantities := reachableQuantities [("m2", "7")] }
      burger).2.quantity = .number (.fin 1) ∧
    (handleAddToCart_call "r1"
      { initialRestaurantPageState with quantities := reachableQuantities [("m2", "7")] }
      { burger with _id := "valueOf" }).2.quantity = .inherited "valueOf" :=
  ⟨((quantity_sent_from_last_edit "r1"
      { initialRestaurantPageState with
        quantities := reachableQuantities [("m2", "3"), ("m1", "abc"), ("m2", "7")] }
      [("m2", "3"), ("m1", "abc"), ("m2", "7")] pizza rfl).1 "7" (by decide)).1.trans
      (by decide),
   ((quantity_sent_from_last_edit "r1"
      { initialRestaurantPageState with
        quantities := reachableQuantities [("m1", "2"), ("m1", overflowingInput)] }
      [("m1", "2"), ("m1", overflowingInput)] burger rfl).1 overflowingInput
      (by decide)).2.2 (by decide),
   ((quantity_sent_from_last_edit "r1"
      { initialRestaurantPageState with quantities := reachableQuantities [("m2", "7")] }
      [("m2", "7")] burger rfl).2 (by decide)).1 (by decide),
   ((quantity_sent_from_last_edit "r1"
      { initialRestaurantPageState with quantities := reachableQuantities [("m2", "7")] }
      [("m2", "7")] { burger with _id := "valueOf" } rfl).2 (by decide)).2 (by decide)⟩

/-! ## C10 -/

/-- C10 as stated fails: when the menu fetch of a freshly mounted page rejects,
loading is over, the error message is set, and the page renders the error alert
together with the empty-state call-to-action. -/
theorem failed_fetch_renders_empty_state :
    (fetchMenuItems_rejected (fetchMenuItems_start initialRestaurantPageState) none).isLoading
      = false ∧
    (fetchMenuItems_rejected (fetchMenuItems_start initialRestaurantPageState) none).error
      = "Failed to load menu items" ∧
    render "http://localhost:5001"
      (fetchMenuItems_rejected (fetchMenuItems_start initialRestaurantPageState) none)
      = [Block.errorAlert "Failed to load menu items", Block.emptyState,
         Block.viewCartButton] := by
  decide

/-- C10, amended: the menu fetch settles with `isLoading` false, and for every
page state with `isLoading` false the empty-state call-to-action is rendered
if and only if the menu list is empty, the item grid if and only if it is not
empty, never both; the error alert is rendered if and only if the error
message is not empty, whichever of the two is rendered. -/
theorem render_settled (baseUrl : String) (s : RestaurantPageState)
    (h : s.isLoading = false) :
    (∀ (s0 : RestaurantPageState) (data : Option (List MenuItem)) (msg : Option String),
      (fetchMenuItems_resolved s0 data).isLoading = false ∧
      (fetchMenuItems_rejected s0 msg).isLoading = false) ∧
    (Block.emptyState ∈ render baseUrl s ↔ s.menuItems = []) ∧
    ((∃ cards, Block.grid cards ∈ render baseUrl s) ↔ s.menuItems ≠ []) ∧
    ¬ (Block.emptyState ∈ render baseUrl s ∧ ∃ cards, Block.grid cards ∈ render baseUrl s) ∧
    (∀ msg, Block.errorAlert msg ∈ render baseUrl s ↔ (s.error ≠ "" ∧ msg = s.error)) := by
  have hE : Block.emptyState ∈ render baseUrl s ↔ s.menuItems = [] := by
    by_cases he : s.error = "" <;> by_cases hsu : s.success = "" <;>
      by_cases hm : s.menuItems = [] <;> simp [render, h, he, hsu, hm]
  have hG : (∃ cards, Block.grid cards ∈ render baseUrl s) ↔ s.menuItems ≠ [] := by
    by_cases he : s.error = "" <;> by_cases hsu : s.success = "" <;>
      by_cases hm : s.menuItems = [] <;> simp [render, h, he, hsu, hm]
  refine ⟨?_, hE, hG, ?_, ?_⟩
  · intro s0 data msg
    simp [fetchMenuItems_resolved, fetchMenuItems_rejected]
  · rintro ⟨h1, h2⟩
    exact (hG.mp h2) (hE.mp h1)
  · intro msg
    by_cases he : s.error = "" <;> by_cases hsu : s.success = "" <;>
      by_cases hm : s.menuItems = [] <;> simp [render, h, he, hsu, hm]

/-- C10, amended, at concrete inputs: a fetch that resolves with no items
renders the empty state, and one that resolves with an item renders a grid and
no empty state. -/
theorem render_settled_witness :
    Block.emptyState ∈ render "http://localhost:5001"
      (fetchMenuItems_resolved (fetchMenuItems_start initialRestaurantPageState) (some [])) ∧
    Block.emptyState ∉ render "http://localhost:5001"
      (fetchMenuItems_resolved (fetchMenuItems_start initialRestaurantPageState)
        (some [burger])) :=
  ⟨(render_settled "http://localhost:5001"
      (fetchMenuItems_resolved (fetchMenuItems_start initialRestaurantPageState) (some []))
      rfl).2.1.mpr rfl,
   fun hmem => List.cons_ne_nil burger []
     ((render_settled "http://localhost:5001"
        (fetchMenuItems_resolved (fetchMenuItems_start initialRestaurantPageState)
          (some [burger])) rfl).2.1.mp hmem)⟩

/-! ## C6 -/

/-- C6 fails on the code: the burger is added at time 0, the pizza is clicked at
1000 ms and added at 2000 ms; at 3000 ms the timer of the burger fires and
clears the pizza message, 1000 ms after it was set and with no add-to-cart
started since. -/
theorem success_message_cleared_early : ¬ SuccessMessageHeld := by
  intro h
  have hrun : run "r1" initialRuntime
      [.addToCartClick burger, .addToCartResolved burger, .elapse 1000,
       .addToCartClick pizza, .elapse 1000] =
      some { page := initialRestaurantPageState, now := 2000, timers := [3000],
             inFlight := [pizza],
             sent := [{ restaurant := "r1", menuItem := "m1", quantity := .number (.fin 1),
                        price := 200 },
                      { restaurant := "r1", menuItem := "m2", quantity := .number (.fin 1),
                        price := 500 }] } := by
    rfl
  have hstep : step "r1"
      { page := initialRestaurantPageState, now := 2000, timers := [3000],
        inFlight := [pizza],
        sent := [{ restaurant := "r1", menuItem := "m1", quantity := .number (.fin 1),
                        price := 200 },
                 { restaurant := "r1", menuItem := "m2", quantity := .number (.fin 1),
                   price := 500 }] }
      (.addToCartResolved pizza) =
      some { page := { initialRestaurantPageState with success := "Pizza added to cart!" },
             now := 2000, timers := [3000, 5000], inFlight := [],
             sent := [{ restaurant := "r1", menuItem := "m1", quantity := .number (.fin 1),
                        price := 200 },
                      { restaurant := "r1", menuItem := "m2", quantity := .number (.fin 1),
                        price := 500 }] } := by
    rfl
  have hafter : run "r1"
      { page := { initialRestaurantPageState with success := "Pizza added to cart!" },
        now := 2000, timers := [3000, 5000], inFlight := [],
        sent := [{ restaurant := "r1", menuItem := "m1", quantity := .number (.fin 1),
                        price := 200 },
                 { restaurant := "r1", menuItem := "m2", quantity := .number (.fin 1),
                   price := 500 }] }
      [.elapse 1000, .timerFires] =
      some { page := initialRestaurantPageState, now := 3000, timers := [5000],
             inFlight := [],
             sent := [{ restaurant := "r1", menuItem := "m1", quantity := .number (.fin 1),
                        price := 200 },
                      { restaurant := "r1", menuItem := "m2", quantity := .number (.fin 1),
                        price := 500 }] } := by
    rfl
  have hbad := h "r1" _ pizza _ _ _ _ hrun hstep hafter
    (by intro e he; simp at he; rcases he with rfl | rfl <;> rfl)
    (by decide)
  revert hbad
  decide

/-! ## C2 -/

/-- C2: for every form state and every failed outcome of the hash-signing POST
(the fetch rejects, or the response is not OK), `handlePayment` makes no call
to `payhere.startPayment`. -/
theorem handlePayment_failure_no_startPayment (s : PaymentPageState) (outcome : FetchOutcome)
    (h : outcome.failed = true) :
    startPaymentCalls (handlePayment s outcome) = [] := by
  cases outcome with
  | rejected => rfl
  | response ok json =>
    cases ok with
    | true => simp [FetchOutcome.failed] at h
    | false => rfl

/-- C2 at concrete inputs: a rejected fetch and a non-OK response, from the
state on mount. -/
theorem handlePayment_failure_no_startPayment_witness :
    startPaymentCalls (handlePayment (initialPaymentPageState 1700000000000) .rejected) = [] ∧
    startPaymentCalls (handlePayment (initialPaymentPageState 1700000000000)
      (.response false (some { hash := some "ABC", merchant_id := some "1221149" }))) = [] :=
  ⟨handlePayment_failure_no_startPayment (initialPaymentPageState 1700000000000)
      .rejected rfl,
   handlePayment_failure_no_startPayment (initialPaymentPageState 1700000000000)
      (.response false (some { hash := some "ABC", merchant_id := some "1221149" })) rfl⟩

/-! ## C3 -/

/-- C3: when the hash-signing POST resolves with an OK response whose body parses
to a reply, `handlePayment` POSTs exactly one body `d` and calls
`payhere.startPayment` exactly once, with a descriptor `p` whose `hash` and
`merchant_id` are those of the reply, whose `order_id`, `user_id` and
`payment_method` are the form's, whose amount, currency and payer fields are
those of `d`, and whose three URLs are fixed constants. -/
theorem handlePayment_ok_startPayment_once (s : PaymentPageState) (reply : HashReply) :
    ∃ (p : Payment) (d : PaymentDetails),
      startPaymentCalls (handlePayment s (.response true (some reply))) = [p] ∧
      postedBodies (handlePayment s (.response true (some reply))) = [d] ∧
      p.hash = reply.hash ∧ p.merchant_id = reply.merchant_id ∧
      p.order_id = s.orderId ∧ p.user_id = s.userId ∧ p.payment_method = s.paymentMethod ∧
      d.order_id = s.orderId ∧ d.user_id = s.userId ∧ d.payment_method = s.paymentMethod ∧
      p.amount = d.amount ∧ p.currency = d.currency ∧
      p.first_name = d.first_name ∧ p.last_name = d.last_name ∧ p.email = d.email ∧
      p.phone = d.phone ∧ p.address = d.address ∧ p.city = d.city ∧ p.country = d.country ∧
      p.return_url = "http://localhost:5173/pay" ∧
      p.cancel_url = "http://localhost:5173/pay" ∧
      p.notify_url =
        "https://2204-2402-4000-2260-e928-7862-8cd3-11ba-9289.ngrok-free.app/payment/notify" :=
  ⟨payment (paymentDetails s) reply, paymentDetails s, rfl, rfl, rfl, rfl, rfl, rfl, rfl,
    rfl, rfl, rfl, rfl, rfl, rfl, rfl, rfl, rfl, rfl, rfl, rfl, rfl, rfl, rfl⟩

/-! ## C4 -/

/-- C4: `handlePaymentMethodChange` sets the status from the selected value
alone: "cash" gives method "cash" and status "Pending", "card" gives method
"card" and status "Success"; the status is the same from any two prior states,
`handlePayment` changes no state, and after any sequence of user actions,
payment attempts with any outcome included, a selection sets the status that
the selected value determines. -/
theorem handlePaymentMethodChange_status (s : PaymentPageState) :
    ((handlePaymentMethodChange s "cash").paymentMethod = "cash" ∧
      (handlePaymentMethodChange s "cash").paymentStatus = "Pending") ∧
    ((handlePaymentMethodChange s "card").paymentMethod = "card" ∧
      (handlePaymentMethodChange s "card").paymentStatus = "Success") ∧
    (∀ (s2 : PaymentPageState) (v : String),
      (handlePaymentMethodChange s v).paymentStatus =
        (handlePaymentMethodChange s2 v).paymentStatus) ∧
    (∀ outcome : FetchOutcome, (paymentStep s (.proceedWithPayment outcome)).1 = s) ∧
    (∀ (es : List PaymentEvent) (v : String),
      (paymentRun s (es ++ [.selectPaymentMethod v])).paymentStatus =
        if v = "cash" then "Pending" else "Success") := by
  refine ⟨⟨rfl, rfl⟩, ⟨rfl, rfl⟩, fun _ _ => rfl, fun _ => rfl, ?_⟩
  intro es v
  simp [paymentRun, List.foldl_append, paymentStep, handlePaymentMethodChange]

/-! ## C5 -/

/-- A number below `2^(53+k)` has at most `k` bits beyond 53. -/
theorem excessBits_le (fuel : Nat) : ∀ (n k : Nat), n < 2 ^ (53 + k) → excessBits fuel n ≤ k := by
  induction fuel with
  | zero => intro n k _; simp [excessBits]
  | succ f ih =>
    intro n k hn
    by_cases h : n < 2 ^ 53
    · simp only [excessBits, h, if_true]
      exact Nat.zero_le _
    · cases k with
      | zero => exact absurd hn h
      | succ k1 =>
        have h2 : 2 ^ (53 + (k1 + 1)) = 2 * 2 ^ (53 + k1) := by
          rw [← Nat.add_assoc, Nat.pow_succ, Nat.mul_comm]
        rw [h2] at hn
        have hhalf : n / 2 < 2 ^ (53 + k1) := Nat.div_lt_of_lt_mul hn
        have hrec := ih (n / 2) k1 hhalf
        simp only [excessBits, h, if_false]
        omega

set_option exponentiation.threshold 4096 in
/-- There is at least one unit in 1. -/
theorem unitsPerOne_pos : 0 < Double.unitsPerOne :=
  Nat.two_pow_pos 1074

set_option exponentiation.threshold 4096 in
/-- Rounding is exact on a whole number of units that is a natural number
below `2^53` times the units in 1. -/
theorem roundRatio_exact (negative : Bool) (n b : Nat) (hn : n < 2 ^ 53) (hb : 0 < b) :
    Double.roundRatio negative (n * Double.unitsPerOne * b) b =
      .finite (if negative then -((n * Double.unitsPerOne : Nat) : Int)
        else ((n * Double.unitsPerOne : Nat) : Int)) := by
  have hdiv : n * Double.unitsPerOne * b / b = n * Double.unitsPerOne :=
    Nat.mul_div_cancel _ hb
  have hU : Double.unitsPerOne = 2 ^ 1074 := by unfold Double.unitsPerOne; exact Eq.refl _
  have hlt : n * Double.unitsPerOne < 2 ^ (53 + 1074) := by
    rw [Nat.pow_add, hU]
    exact Nat.mul_lt_mul_of_lt_of_le hn (le_refl _) (Nat.two_pow_pos _)
  have he : excessBits (n * Double.unitsPerOne) (n * Double.unitsPerOne) ≤ 1074 :=
    excessBits_le _ _ _ hlt
  generalize hE : excessBits (n * Double.unitsPerOne) (n * Double.unitsPerOne) = e at he
  obtain ⟨c, hc⟩ : ∃ c, Double.unitsPerOne = c * 2 ^ e :=
    ⟨2 ^ (1074 - e), by rw [hU, ← Nat.pow_add, Nat.sub_add_cancel he]⟩
  have hu : 0 < b * 2 ^ e := Nat.mul_pos hb (Nat.two_pow_pos _)
  have ha : n * Double.unitsPerOne * b = n * c * (b * 2 ^ e) := by
    rw [hc]; ring
  have hq : n * Double.unitsPerOne * b / (b * 2 ^ e) = n * c := by
    rw [ha]; exact Nat.mul_div_cancel _ hu
  have hr : n * Double.unitsPerOne * b % (b * 2 ^ e) = 0 := by
    rw [ha]; exact Nat.mul_mod_left _ _
  have hk : n * c * 2 ^ e = n * Double.unitsPerOne := by
    rw [hc]; ring
  have hbig : ¬ 2 ^ 2098 ≤ n * Double.unitsPerOne := by
    have : 2 ^ (53 + 1074) ≤ 2 ^ 2098 := Nat.pow_le_pow_right (by decide) (by decide)
    omega
  unfold Double.roundRatio
  simp only [hdiv, hE, hq, hr, Nat.mul_zero]
  have hcond : ¬ (b * 2 ^ e < 0 ∨ (0 = b * 2 ^ e ∧ n * c % 2 = 1)) := by
    rintro (h | ⟨h, _⟩) <;> omega
  simp only [hcond, if_false, hk, hbig]

/-- The Number of a natural number below `2^53` has exactly that value. -/
theorem ofNat_exact (n : Nat) (hn : n < 2 ^ 53) : Double.ofNat n = Double.withValue n := by
  have h := roundRatio_exact false n 1 hn (by decide)
  simp only [Nat.mul_one] at h
  simpa [Double.ofNat, Double.ofRatio, Double.withValue] using h

/-- Adding two natural numbers is exact when the sum is below `2^53`. -/
theorem add_exact (x y : Nat) (h : x + y < 2 ^ 53) :
    Double.add (Double.withValue x) (Double.withValue y) = Double.withValue (x + y) := by
  have hsum : ((x * Double.unitsPerOne : Nat) : Int) + ((y * Double.unitsPerOne : Nat) : Int)
      = (((x + y) * Double.unitsPerOne : Nat) : Int) := by
    push_cast; ring
  have hr := roundRatio_exact false (x + y) 1 h (by decide)
  simp only [Nat.mul_one] at hr
  simp only [Double.withValue, Double.add, hsum, Int.natAbs_ofNat]
  have hneg : decide ((((x + y) * Double.unitsPerOne : Nat) : Int) < 0) = false := by
    simp only [decide_eq_false_iff_not, not_lt]
    exact Int.ofNat_nonneg _
  rw [hneg]
  simpa using hr

/-- Multiplying two natural numbers is exact when the product is below `2^53`. -/
theorem mul_exact (x y : Nat) (h : x * y < 2 ^ 53) :
    Double.mul (Double.withValue x) (Double.withValue y) = Double.withValue (x * y) := by
  have hprod : ((x * Double.unitsPerOne : Nat) : Int) * ((y * Double.unitsPerOne : Nat) : Int)
      = ((x * y * Double.unitsPerOne * Double.unitsPerOne : Nat) : Int) := by
    push_cast; ring
  have hr := roundRatio_exact false (x * y) Double.unitsPerOne h unitsPerOne_pos
  simp only [Double.withValue, Double.mul, hprod, Int.natAbs_ofNat]
  have hneg : decide (((x * y * Double.unitsPerOne * Double.unitsPerOne : Nat) : Int) < 0)
      = false := by
    simp only [decide_eq_false_iff_not, not_lt]
    exact Int.ofNat_nonneg _
  rw [hneg]
  simpa using hr

/-- The fold of `orderTotal` is exact on lines of natural numbers as long as
the running total stays below `2^53`. -/
theorem orderTotal_fold_exact (lines : List IntegerLine) :
    ∀ acc : Nat, (∀ l ∈ lines, l.quantity < 2 ^ 53 ∧ l.price < 2 ^ 53) →
      acc + specTotal lines < 2 ^ 53 →
      (lines.map IntegerLine.toCartLine).foldl
        (fun a item => Double.add a (Double.mul item.price item.quantity))
        (Double.withValue acc) = Double.withValue (acc + specTotal lines) := by
  induction lines with
  | nil =>
    intro acc _ _
    simp [specTotal]
  | cons l ls ih =>
    intro acc hfields hsum
    have hcons : specTotal (l :: ls) = l.quantity * l.price + specTotal ls := by
      simp [specTotal]
    rw [hcons] at hsum
    have hl := hfields l (List.mem_cons_self l ls)
    have hprod : l.price * l.quantity < 2 ^ 53 := by
      rw [Nat.mul_comm]; omega
    have hacc : acc + l.price * l.quantity < 2 ^ 53 := by
      rw [Nat.mul_comm l.price]; omega
    have hstep : Double.add (Double.withValue acc)
        (Double.mul (IntegerLine.toCartLine l).price (IntegerLine.toCartLine l).quantity)
        = Double.withValue (acc + l.price * l.quantity) := by
      simp only [IntegerLine.toCartLine]
      rw [ofNat_exact _ hl.2, ofNat_exact _ hl.1, mul_exact _ _ hprod, add_exact _ _ hacc]
    simp only [List.map_cons, List.foldl_cons]
    rw [hstep, ih (acc + l.price * l.quantity)
      (fun x hx => hfields x (List.mem_cons_of_mem l hx))
      (by rw [Nat.mul_comm l.price]; omega)]
    rw [hcons, Nat.mul_comm l.price, Nat.add_assoc]

/-- No user action changes the `cartItems` state. -/
theorem paymentRun_cartItems (es : List PaymentEvent) :
    ∀ s : PaymentPageState, (paymentRun s es).cartItems = s.cartItems := by
  induction es with
  | nil => intro s; rfl
  | cons e es ih =>
    intro s
    have hstep : (paymentStep s e).1.cartItems = s.cartItems := by
      cases e <;> rfl
    simp only [paymentRun, List.foldl_cons] at ih ⊢
    rw [ih, hstep]

set_option exponentiation.threshold 4096 in
set_option maxRecDepth 100000 in
/-- The model of the double arithmetic on sample values: `0.1 + 0.2` is
`0.30000000000000004` and not `0.3`, three times `1.1` is
`3.3000000000000003`, and `2^53 + 1` is `2^53`. -/
theorem double_samples :
    Double.add (Double.ofRatio 1 10) (Double.ofRatio 2 10)
      = Double.ofRatio 30000000000000004 100000000000000000 ∧
    Double.add (Double.ofRatio 1 10) (Double.ofRatio 2 10) ≠ Double.ofRatio 3 10 ∧
    orderTotal [{ item := "Soup", quantity := Double.ofNat 3, price := Double.ofRatio 11 10 }]
      = Double.ofRatio 33000000000000003 10000000000000000 ∧
    Double.add (Double.ofNat 9007199254740992) (Double.ofNat 1)
      = Double.ofNat 9007199254740992 := by
  decide

set_option exponentiation.threshold 4096 in
set_option maxRecDepth 100000 in
/-- The model of the double arithmetic at its edges: underflow to 0, halves of
the smallest positive double rounded to even, negative values, and the `NaN`
results of `Infinity - Infinity` and `0 * Infinity`. -/
theorem double_edge_samples :
    Double.mul (Double.ofRatio 1 (10 ^ 200)) (Double.ofRatio 1 (10 ^ 200)) = .finite 0 ∧
    Double.mul (.finite 1) (Double.ofRatio 1 2) = .finite 0 ∧
    Double.mul (.finite 1) (Double.ofRatio 3 2) = .finite 2 ∧
    Double.mul (.finite (-((3 * Double.unitsPerOne : Nat) : Int))) (Double.ofNat 2)
      = .finite (-((6 * Double.unitsPerOne : Nat) : Int)) ∧
    Double.add (.finite (-((3 * Double.unitsPerOne : Nat) : Int))) (Double.ofNat 2)
      = .finite (-((1 * Double.unitsPerOne : Nat) : Int)) ∧
    Double.add .posInf .negInf = .nan ∧
    Double.mul (Double.ofNat 0) .posInf = .nan ∧
    Double.mul .negInf (.finite (-1)) = .posInf ∧
    Double.add (Double.ofNat 5) .nan = .nan := by
  decide

set_option exponentiation.threshold 4096 in
set_option maxRecDepth 100000 in
/-- C5 as stated fails: for the two lines 1 at `2^53` and 1 at 1 the exact sum of
quantity times price is `2^53 + 1`, and the total that the fold of the code
computes in double arithmetic is `2^53`. -/
theorem orderTotal_rounds_large_sum :
    specTotal [{ item := "A", quantity := 1, price := 9007199254740992 },
               { item := "B", quantity := 1, price := 1 }] = 9007199254740993 ∧
    orderTotal ([{ item := "A", quantity := 1, price := 9007199254740992 },
                 { item := "B", quantity := 1, price := 1 }].map IntegerLine.toCartLine)
      = Double.withValue 9007199254740992 ∧
    orderTotal ([{ item := "A", quantity := 1, price := 9007199254740992 },
                 { item := "B", quantity := 1, price := 1 }].map IntegerLine.toCartLine)
      ≠ Double.withValue
          (specTotal [{ item := "A", quantity := 1, price := 9007199254740992 },
                      { item := "B", quantity := 1, price := 1 }]) := by
  decide

set_option exponentiation.threshold 4096 in
set_option maxRecDepth 100000 in
/-- C5, amended: the total of the order summary is the left fold from 0 of
`acc + price * quantity` in double arithmetic; for every list of cart lines
whose quantities and prices are natural numbers below `2^53` and whose exact
sum of quantity times price is below `2^53`, it is exactly that sum; and for
the hardcoded lines, 2 burgers at 200 and 1 pizza at 500, which no user action
changes, it is 900. -/
theorem orderTotal_exact (lines : List IntegerLine)
    (hfields : ∀ l ∈ lines, l.quantity < 2 ^ 53 ∧ l.price < 2 ^ 53)
    (hsum : specTotal lines < 2 ^ 53) :
    orderTotal (lines.map IntegerLine.toCartLine) = Double.withValue (specTotal lines) ∧
    orderTotal cartItems = Double.withValue 900 ∧
    (∀ (dateNow : Nat) (es : List PaymentEvent),
      orderTotal (paymentRun (initialPaymentPageState dateNow) es).cartItems
        = Double.withValue 900) := by
  have h900 : orderTotal cartItems = Double.withValue 900 := by decide
  refine ⟨?_, h900, ?_⟩
  · have h0 : Double.ofNat 0 = Double.withValue 0 := ofNat_exact 0 (by decide)
    have h := orderTotal_fold_exact lines 0 hfields (by rw [Nat.zero_add]; exact hsum)
    rw [Nat.zero_add] at h
    unfold orderTotal
    rw [h0]
    exact h
  · intro dateNow es
    rw [paymentRun_cartItems]
    exact h900

/-- C5, amended, at a concrete input: for the lines 2 at 200 and 1 at 500 the
total is 900, and for 3 at 150, 2 at 75 and 10 at 0 it is 600. -/
theorem orderTotal_exact_witness :
    orderTotal ([{ item := "Burger", quantity := 2, price := 200 },
                 { item := "Pizza", quantity := 1, price := 500 }].map IntegerLine.toCartLine)
      = Double.withValue 900 ∧
    orderTotal ([{ item := "Rice", quantity := 3, price := 150 },
                 { item := "Tea", quantity := 2, price := 75 },
                 { item := "Water", quantity := 10, price := 0 }].map IntegerLine.toCartLine)
      = Double.withValue 600 :=
  ⟨(orderTotal_exact
      [{ item := "Burger", quantity := 2, price := 200 },
       { item := "Pizza", quantity := 1, price := 500 }] (by decide) (by decide)).1,
   (orderTotal_exact
      [{ item := "Rice", quantity := 3, price := 150 },
       { item := "Tea", quantity := 2, price := 75 },
       { item := "Water", quantity := 10, price := 0 }] (by decide) (by decide)).1⟩

/-! ## C7 -/

/-- C7: for any two form states and any two outcomes, the bodies that
`handlePayment` POSTs have the same amount, currency and payer fields, the
amount being "3500.00" and the currency "LKR"; and changing the form's amount
field changes none of the calls that `handlePayment` makes. -/
theorem handlePayment_literals_independent (s1 s2 : PaymentPageState)
    (o1 o2 : FetchOutcome) :
    (∃ d1 d2 : PaymentDetails,
      postedBodies (handlePayment s1 o1) = [d1] ∧
      postedBodies (handlePayment s2 o2) = [d2] ∧
      d1.amount = d2.amount ∧ d1.currency = d2.currency ∧
      d1.first_name = d2.first_name ∧ d1.last_name = d2.last_name ∧
      d1.email = d2.email ∧ d1.phone = d2.phone ∧ d1.address = d2.address ∧
      d1.city = d2.city ∧ d1.country = d2.country ∧
      d1.amount = "3500.00" ∧ d1.currency = "LKR") ∧
    (∀ a : String, handlePayment { s1 with amount := a } o1 = handlePayment s1 o1) := by
  have hb : ∀ (s : PaymentPageState) (o : FetchOutcome),
      postedBodies (handlePayment s o) = [paymentDetails s] := by
    intro s o
    cases o with
    | rejected => rfl
    | response ok json =>
      cases ok with
      | true =>
        cases json with
        | none => rfl
        | some r => rfl
      | false => rfl
  exact ⟨⟨paymentDetails s1, paymentDetails s2, hb s1 o1, hb s2 o2, rfl, rfl, rfl, rfl, rfl,
    rfl, rfl, rfl, rfl, rfl, rfl⟩, fun _ => rfl⟩

end UberEats
